import Mathlib

/-!
# ReguGuard-AI: verification of the retrieval-and-scoring pipeline

Shallow embedding of the core logic of `modules/compliance_analyzer.py` and
`modules/rag_engine.py` of the ReguGuard-AI repository, together with proofs
and refutations of the specified properties of the pipeline.

Modelling conventions:
* Python `float` arithmetic is modelled by `ℝ` (ideal real arithmetic);
  similarity scores, which only undergo rational operations inside the
  repository code, are modelled by `ℚ` so that concrete runs are decidable.
* Python strings are modelled by Lean `String` (a list of characters);
  `in`, `.lower()`, `.strip()`, `.split()`, slicing and `.replace` are
  re-implemented character-by-character below.
* Python `round` (round-half-to-even) is modelled faithfully by `pyRound`.
* The sklearn TF-IDF vectorizer and cosine similarity are external library
  calls; the retrieval logic is therefore parameterized by the similarity
  vector it receives, and the analysis pipeline by the retrieval callback,
  exactly at the boundary where the repository calls into sklearn.
-/

namespace ReguGuard

/-- Whitespace characters recognized by Python `str.strip` / `str.split`. -/
def pyIsSpace (c : Char) : Bool :=
  c = ' ' || c = '\t' || c = '\n' || c = '\r' || c = '\x0b' || c = '\x0c'

/-- Does `needle` occur at the head of `hay`? -/
def leadMatch : List Char → List Char → Bool
  | [], _ => true
  | _ :: _, [] => false
  | a :: as, b :: bs => a = b && leadMatch as bs

/-- Does `needle` occur contiguously anywhere in `hay`? -/
def subOccurs (needle : List Char) : List Char → Bool
  | [] => leadMatch needle []
  | b :: bs => leadMatch needle (b :: bs) || subOccurs needle bs

/-- Python `needle in hay` substring containment on strings. -/
def pyIn (needle hay : String) : Bool :=
  subOccurs needle.data hay.data

/-- Python `str.lower()` (ASCII case folding as used by the repository). -/
def pyLower (s : String) : String :=
  ⟨s.data.map Char.toLower⟩

/-- Python `str.strip()` with no arguments. -/
def pyStrip (s : String) : String :=
  ⟨((s.data.dropWhile pyIsSpace).reverse.dropWhile pyIsSpace).reverse⟩

/-- Auxiliary splitter for Python `str.split()` (split on whitespace runs). -/
def splitWordsAux : List Char → List Char → List (List Char)
  | [], cur => if cur.isEmpty then [] else [cur.reverse]
  | c :: cs, cur =>
    if pyIsSpace c then
      if cur.isEmpty then splitWordsAux cs [] else cur.reverse :: splitWordsAux cs []
    else splitWordsAux cs (c :: cur)

/-- Python `str.split()` with no arguments. -/
def pySplitWS (s : String) : List String :=
  (splitWordsAux s.data []).map fun l => ⟨l⟩

/-- Python `len(text.split())`: the number of whitespace-separated words. -/
def wordCount (s : String) : Nat :=
  (pySplitWS s).length

/-- Python slicing `s[:n]` (by code point, as in Python). -/
def strTake (n : Nat) (s : String) : String :=
  ⟨s.data.take n⟩

/-- Python `s.replace(" ", "")`. -/
def removeSpaces (s : String) : String :=
  ⟨s.data.filter (fun c => !(c = ' '))⟩

/-- Python `s.replace("\n", " ")`. -/
def newlineToSpace (s : String) : String :=
  ⟨s.data.map (fun c => if c = '\n' then ' ' else c)⟩

/-- Python truthiness of a string combined with `strip`: `not s or not s.strip()`,
i.e. the string is empty or whitespace-only. -/
def isBlank (s : String) : Bool :=
  s.data.all pyIsSpace

/-- Python `round` on a real value: round half to even (round-half-to-even). -/
noncomputable def pyRound (x : ℝ) : ℤ :=
  if x - ⌊x⌋ < 1/2 then ⌊x⌋
  else if (1:ℝ)/2 < x - ⌊x⌋ then ⌊x⌋ + 1
  else if Even ⌊x⌋ then ⌊x⌋ else ⌊x⌋ + 1

/-- Clamp a real to `[0,1]`: Python `max(0.0, min(1.0, x))`. -/
noncomputable def clamp01 (x : ℝ) : ℝ := max 0 (min 1 x)

/-! ## Data model

`Regulation` embeds the regulation-record dictionaries
`{source_name, source_url, category, title, text}` produced by the scraper;
`RMatch` embeds `{"regulation": ..., "similarity_score": ...}` returned by
`RAGEngine.retrieve_relevant_regulations`; `Clause` embeds the section
dictionaries `{id, title, text, category}` produced by
`parse_sop_into_clauses`. -/

structure Regulation where
  source_name : String
  source_url : String
  category : String
  title : String
  text : String
deriving DecidableEq

structure RMatch where
  regulation : Regulation
  similarity_score : ℚ
deriving DecidableEq

structure Clause where
  id : String
  title : String
  text : String
  category : String
deriving DecidableEq

/-! ## `calculate_compliance_score` and its sub-score helpers
(`modules/compliance_analyzer.py`, lines 20-361) -/

structure Weights where
  regulatory : ℚ
  language : ℚ
  completeness : ℚ
deriving DecidableEq

/-- The `industry_weights` table of `calculate_compliance_score`. -/
def industryWeightTable : List (String × Weights) := [
  ("Finance", ⟨45/100, 30/100, 25/100⟩),
  ("Pharma/Healthcare", ⟨50/100, 25/100, 25/100⟩),
  ("Education", ⟨40/100, 30/100, 30/100⟩),
  ("Agriculture", ⟨40/100, 30/100, 30/100⟩),
  ("Manufacturing", ⟨35/100, 35/100, 30/100⟩),
  ("Technology", ⟨40/100, 30/100, 30/100⟩),
  ("Retail", ⟨35/100, 35/100, 30/100⟩),
  ("Energy", ⟨45/100, 30/100, 25/100⟩),
  ("Construction", ⟨40/100, 30/100, 30/100⟩),
  ("Legal", ⟨45/100, 35/100, 20/100⟩),
  ("General", ⟨40/100, 30/100, 30/100⟩)]

def generalWeights : Weights := ⟨40/100, 30/100, 30/100⟩

/-- Embeds `industry_weights.get(industry, industry_weights["General"])`; the Python
`industry` argument may be `None` (modelled by `Option String`). -/
def lookupWeights (industry : Option String) : Weights :=
  match industry with
  | none => generalWeights
  | some s => ((industryWeightTable.find? (fun p => p.1 = s)).map Prod.snd).getD generalWeights

/-- The weighted geometric mean `base_score` of `calculate_compliance_score`
(lines 123-129), with the three sub-scores already clamped to `[0,1]`
(lines 117-121). `math.pow` on a nonnegative base is `Real.rpow`. -/
noncomputable def baseScore (ra ls cs : ℝ) (w : Weights) : ℝ :=
  clamp01 ra ^ (w.regulatory : ℝ) * clamp01 ls ^ (w.language : ℝ) *
    clamp01 cs ^ (w.completeness : ℝ)

/-- The saturation transform producing `base_score_scaled` (lines 131-136). -/
noncomputable def scaleBase (b : ℝ) : ℝ :=
  if 0 < b then 100 * (1 - Real.exp (-2 * b)) else 0

/-- The `completeness_penalty` of `calculate_compliance_score` (lines 147-152). -/
noncomputable def completenessPenalty (missing total : ℕ) : ℝ :=
  if 0 < total then 30 * (((missing : ℝ) / (total : ℝ)) ^ ((3:ℝ)/2)) else 0

/-- The real-valued `final_score` of `calculate_compliance_score` before
clamping and rounding (lines 138-159). -/
noncomputable def calcComplianceReal
    (regulatory_alignment_score language_strength_score completeness_score risk_penalty : ℝ)
    (industry : Option String)
    (has_citations has_enforceable_language : Bool)
    (missing_critical_elements total_elements_checked : ℕ) : ℝ :=
  let w := lookupWeights industry
  let base_score_scaled :=
    scaleBase (baseScore regulatory_alignment_score language_strength_score
      completeness_score w)
  let citation_bonus : ℝ := if has_citations then 3 else 0
  let enforceable_bonus : ℝ := if has_enforceable_language then 2 else 0
  let risk_adjusted_score := base_score_scaled * (1 - clamp01 risk_penalty * (4/10))
  risk_adjusted_score + citation_bonus + enforceable_bonus -
    completenessPenalty missing_critical_elements total_elements_checked

/-- Embeds `calculate_compliance_score` (lines 20-164): the clamped, rounded integer
score. Floats are modelled as reals and `round` as `pyRound`. -/
noncomputable def calcComplianceScore
    (regulatory_alignment_score language_strength_score completeness_score risk_penalty : ℝ)
    (industry : Option String)
    (has_citations has_enforceable_language : Bool)
    (missing_critical_elements total_elements_checked : ℕ) : ℤ :=
  pyRound (max 0 (min 100 (calcComplianceReal regulatory_alignment_score
    language_strength_score completeness_score risk_penalty industry
    has_citations has_enforceable_language missing_critical_elements
    total_elements_checked)))

/-- Embeds `calculate_regulatory_alignment_score` (lines 167-188); every operation is
rational, so the result is exact in `ℚ`. -/
def calcRegulatoryAlignment (matched : List RMatch) (avg_similarity top_similarity : ℚ) : ℚ :=
  if matched.isEmpty then 0
  else
    let avg_score := min 1 (avg_similarity * 2)
    let top_score := min 1 (top_similarity * (5/2))
    let match_count_score := min 1 ((matched.length : ℚ) / 5)
    min 1 (1/2 * avg_score + 3/10 * top_score + 1/5 * match_count_score)

def strongIndicators : List String :=
  ["must", "shall", "required", "mandatory", "obligated",
   "comply with", "in accordance with", "pursuant to",
   "as mandated", "as required by", "per regulatory"]

def moderateIndicators : List String :=
  ["should", "recommended", "expected", "advisable",
   "best practice", "guideline", "standard"]

def weakIndicators : List String :=
  ["may", "optional", "when possible", "if applicable",
   "best effort", "consider", "where practicable"]

/-- Embeds `calculate_language_strength_score` (lines 191-240); rational arithmetic up
to the final sigmoid, which needs `Real.exp`. -/
noncomputable def calcLanguageStrength (text : String) : ℝ :=
  if text = "" then 0
  else
    let text_lower := pyLower text
    let strong_count := (strongIndicators.filter (fun ind => pyIn ind text_lower)).length
    let moderate_count := (moderateIndicators.filter (fun ind => pyIn ind text_lower)).length
    let weak_count := (weakIndicators.filter (fun ind => pyIn ind text_lower)).length
    if wordCount text = 0 then 0
    else
      let wc : ℚ := (wordCount text : ℚ)
      let strong_density : ℚ := min 1 ((strong_count * 10 : ℚ) / wc * 100)
      let moderate_density : ℚ := min (1/2) ((moderate_count * 5 : ℚ) / wc * 100)
      let weak_density : ℚ := min (3/10) ((weak_count * 3 : ℚ) / wc * 100)
      let language_score : ℚ := strong_density * 1 + moderate_density * (3/10) - weak_density * (1/2)
      clamp01 (1 / (1 + Real.exp (-5 * ((language_score : ℝ) - 3/10))))

def universalElements : List String :=
  ["responsible", "owner", "review", "audit", "approval",
   "procedure", "process", "documentation", "record"]

/-- The `category_elements` table of `calculate_completeness_score`. -/
def categoryElementTable : List (String × List String) := [
  ("Data Privacy", ["consent", "breach", "notification", "retention", "deletion",
    "access", "privacy", "data protection", "gdpr", "hipaa"]),
  ("Health & Safety", ["emergency", "ppe", "incident", "reporting", "training",
    "safety", "hazard", "risk assessment", "osha"]),
  ("Financial", ["audit", "reporting", "internal control", "compliance",
    "record", "documentation", "review", "approval", "sec", "irs"]),
  ("Employment", ["discrimination", "overtime", "leave", "termination",
    "policy", "procedure", "training", "dol", "flsa"]),
  ("Environmental", ["waste", "disposal", "emission", "monitoring", "impact",
    "assessment", "spill", "response", "epa", "rcra"]),
  ("IT Security", ["access control", "encryption", "incident response",
    "security audit", "cybersecurity", "nist", "cisa"]),
  ("Quality Control", ["inspection", "non-conformance", "document control",
    "management review", "corrective action", "fda", "iso"]),
  ("Legal", ["compliance review", "legal hold", "contract review",
    "record retention", "regulatory", "legal"])]

/-- Embeds `calculate_completeness_score` (lines 243-313); all arithmetic rational. -/
def calcCompleteness (text category : String) (matched : List RMatch) : ℚ :=
  if text = "" then 0
  else
    let text_lower := pyLower text
    let universal_found := (universalElements.filter (fun e => pyIn e text_lower)).length
    let universal_total := universalElements.length
    let category_specific :=
      ((categoryElementTable.find? (fun p => p.1 = category)).map Prod.snd).getD []
    let category_found := (category_specific.filter (fun e => pyIn e text_lower)).length
    let category_total := if category_specific.isEmpty then 1 else category_specific.length
    let universal_score : ℚ :=
      if 0 < universal_total then (universal_found : ℚ) / (universal_total : ℚ) else 1/2
    let category_score : ℚ :=
      if 0 < category_total then (category_found : ℚ) / (category_total : ℚ) else 1/2
    let completeness_score : ℚ := 6/10 * universal_score + 4/10 * category_score
    let boosted := if matched.isEmpty then completeness_score
      else min 1 (completeness_score * (11/10))
    max 0 (min 1 boosted)

def highRiskIndicators : List String :=
  ["outdated", "superseded", "deprecated", "no longer",
   "optional", "may", "when possible", "best effort"]

def mediumRiskIndicators : List String :=
  ["should", "recommended", "consider", "if applicable"]

/-- Embeds `calculate_risk_penalty` (lines 316-361); all arithmetic rational. -/
def calcRiskPenalty (text : String) (matched : List RMatch) (avg_similarity : ℚ) : ℚ :=
  if text = "" then 1
  else
    let text_lower := pyLower text
    let high_risk_count := (highRiskIndicators.filter (fun i => pyIn i text_lower)).length
    let medium_risk_count := (mediumRiskIndicators.filter (fun i => pyIn i text_lower)).length
    if wordCount text = 0 then 1
    else
      let wc : ℚ := (wordCount text : ℚ)
      let high_risk_density := min 1 ((high_risk_count * 20 : ℚ) / wc * 100)
      let medium_risk_density := min (1/2) ((medium_risk_count * 10 : ℚ) / wc * 100)
      let risk_score := high_risk_density * (7/10) + medium_risk_density * (3/10)
      let alignment_penalty : ℚ :=
        if matched.isEmpty then 1/2 else if avg_similarity < 1/10 then 3/10 else 0
      min 1 (risk_score + alignment_penalty)

/-! ## `_rule_based_detect_industry` (lines 457-533) -/

structure IndustryResult where
  industry : String
  confidence : String
  reason : String
deriving DecidableEq

/-- The `industry_keywords` table of `_rule_based_detect_industry`. -/
def industryKeywordTable : List (String × List String) := [
  ("Finance", ["bank", "securities", "sec", "fdic", "financial reporting", "accounting",
    "tax compliance", "investment", "trading", "audit", "financial statement", "cfpb",
    "finra", "irs", "treasury", "capital", "loan", "credit", "mortgage",
    "compliance officer", "financial controls"]),
  ("Pharma/Healthcare", ["fda", "pharmaceutical", "drug", "clinical trial", "medical device",
    "hipaa", "healthcare", "patient", "prescription", "gmp", "good manufacturing practice",
    "fda approval", "regulatory affairs", "pharmacy", "hospital", "medical", "health",
    "biotechnology", "biotech"]),
  ("Education", ["education", "school", "university", "student", "ferpa", "curriculum",
    "academic", "accreditation", "educational institution", "campus", "tuition",
    "enrollment", "student data", "educational policy"]),
  ("Agriculture", ["agriculture", "farming", "usda", "crop", "livestock", "food safety",
    "agricultural", "farm", "harvest", "agricultural standards", "organic", "pesticide",
    "fertilizer", "agricultural compliance"]),
  ("Manufacturing", ["manufacturing", "production", "iso", "quality control",
    "production line", "industrial", "assembly", "factory", "manufacturing process",
    "production facility", "industrial safety"]),
  ("Technology", ["software", "it security", "cybersecurity", "data center", "technology",
    "software development", "information technology", "cyber", "network security",
    "it infrastructure", "cloud computing"]),
  ("Retail", ["retail", "consumer", "point of sale", "inventory", "retail store",
    "customer service", "merchandise", "retail operations", "consumer goods", "sales floor"]),
  ("Energy", ["energy", "power", "oil", "gas", "renewable", "emissions", "epa",
    "power generation", "energy sector", "electricity", "petroleum", "nuclear", "solar",
    "wind energy"]),
  ("Construction", ["construction", "building code", "osha construction", "construction site",
    "building", "construction safety", "construction project", "contractor",
    "construction standards"]),
  ("Legal", ["legal compliance", "regulatory affairs", "contract", "legal procedure",
    "attorney", "legal department", "compliance legal", "regulatory compliance",
    "legal review"])]

/-- Embeds `sum(1 for kw in keywords if kw in text_lower)`. -/
def keywordHits (text_lower : String) (kws : List String) : ℕ :=
  (kws.filter (fun kw => pyIn kw text_lower)).length

/-- Python `max(items, key=value)`: first pair with maximal value in
iteration order (Python `max` keeps the earliest maximum). -/
def firstArgmax : List (String × ℕ) → Option (String × ℕ)
  | [] => none
  | p :: ps =>
    match firstArgmax ps with
    | none => some p
    | some q => if p.2 < q.2 then some q else some p

/-- Embeds `" (AI unavailable: {e})"` suffix appended to reasons/methods on AI failure. -/
def aiSuffix : Option String → String
  | none => ""
  | some e => " (AI unavailable: " ++ e ++ ")"

/-- Embeds `_rule_based_detect_industry` (lines 457-533). -/
def ruleBasedDetectIndustry (full_text : String) (ai_error : Option String) : IndustryResult :=
  let text_lower := pyLower full_text
  let scores := (industryKeywordTable.map (fun p => (p.1, keywordHits text_lower p.2))).filter
    (fun q => 0 < q.2)
  match firstArgmax scores with
  | none =>
    ⟨"General", "Low",
      "No specific industry indicators found. Document appears to be general-purpose." ++
        aiSuffix ai_error⟩
  | some best =>
    ⟨best.1,
      if 5 ≤ best.2 then "High" else if 2 ≤ best.2 then "Medium" else "Low",
      "Document contains " ++ toString best.2 ++ " keyword(s) related to " ++ best.1 ++
        " industry." ++ aiSuffix ai_error⟩

/-- Embeds `detect_industry(full_text, use_ai=False)` (lines 364-380): the blank-text
guard followed by the rule-based classifier. -/
def detectIndustry (full_text : String) : IndustryResult :=
  if isBlank full_text then
    ⟨"General", "Low", "No text content available for industry detection."⟩
  else ruleBasedDetectIndustry full_text none

/-! ## `_rule_based_full_document_analysis` (lines 721-939) -/

structure Finding where
  area : String
  status : String
  risk_level : String
  issue : String
  suggestion : String
  applicable_regulations : List String
deriving DecidableEq

structure Citation where
  source : String
  url : String
  title : String
  relevance_score : ℚ
deriving DecidableEq

structure FullReport where
  overall_score : ℤ
  overall_risk_level : String
  executive_summary : String
  findings : List Finding
  missing_elements : List String
  compliance_debt_estimate : ℤ
  citations : List Citation
  analysis_method : String

/-- The rag-engine handle seen by the analyzer: its `retrieve_relevant_regulations`
method (whose sklearn internals are behind `retrieveFromSims` above) and the
optional duck-typed `_industry` attribute probed via `hasattr` (line 759). -/
structure RagHandle where
  retrieve : String → Option String → ℕ → List RMatch
  industry : Option String

/-- Embeds `_has_enforceable_language` (lines 734-736). -/
def hasEnforceableLanguage (txt : String) : Bool :=
  [" must ", " shall ", " required ", " ensure ", " will "].any
    (fun k => pyIn k (pyLower txt))

/-- The sentence splitter `re.split(r"(?<=[.!?])\s+|\n+", text)` used by
`_extract_requirement_sentence` (line 742): a whitespace run preceded by
sentence punctuation, or a newline run, delimits sentences. -/
def sentenceSplitAux : List Char → List Char → List (List Char)
  | [], cur => [cur.reverse]
  | c :: rest, cur =>
    if pyIsSpace c ∧ (cur.head? = some '.' ∨ cur.head? = some '!' ∨ cur.head? = some '?') then
      cur.reverse :: sentenceSplitAux (rest.dropWhile pyIsSpace) []
    else if c = '\n' then
      cur.reverse :: sentenceSplitAux (rest.dropWhile (fun d => d = '\n')) []
    else sentenceSplitAux rest (c :: cur)
termination_by cs _ => cs.length
decreasing_by
  · simp only [List.length_cons]
    exact Nat.lt_succ_of_le (List.dropWhile_sublist _).length_le
  · simp only [List.length_cons]
    exact Nat.lt_succ_of_le (List.dropWhile_sublist _).length_le
  · simp only [List.length_cons]
    exact Nat.lt_succ_self _

def requirementWords : List String := ["must", "shall", "required", "ensure", "provide", "maintain"]

/-- The scan loop of `_extract_requirement_sentence` (lines 743-749). -/
def findRequirementSentence : List String → Option String
  | [] => none
  | p :: ps =>
    let s := pyStrip p
    if s = "" then findRequirementSentence ps
    else if requirementWords.any (fun w => pyIn w (pyLower s)) then some (strTake 260 s)
    else findRequirementSentence ps

/-- Embeds `_extract_requirement_sentence` (lines 738-751). -/
def extractRequirementSentence (reg_text : String) : String :=
  if reg_text = "" then ""
  else
    let parts := (sentenceSplitAux (pyStrip reg_text).data []).map (fun l => (⟨l⟩ : String))
    match findRequirementSentence parts with
    | some s => s
    | none => strTake 260 (newlineToSpace (pyStrip reg_text))

/-- Embeds `sum(m.get("similarity_score", 0) for m in matches)`. -/
def sumSims (ms : List RMatch) : ℚ :=
  (ms.map (fun m => m.similarity_score)).sum

/-- Average similarity: `sum(...)/len(matches) if matches else 0.0`. -/
def avgSim (ms : List RMatch) : ℚ :=
  if ms.isEmpty then 0 else sumSims ms / (ms.length : ℚ)

/-- Top similarity: `matches[0].get("similarity_score", 0.0) if matches else 0.0`. -/
def topSim : List RMatch → ℚ
  | [] => 0
  | m :: _ => m.similarity_score

/-- The per-clause retrieval call (line 772): `rag_engine.retrieve_relevant_regulations(
f"{title}\n{ctext[:1800]}", clause_category=cat, top_k=4)` when a rag engine is
present, else `matched_regs[:4] if matched_regs else []`. -/
def clauseMatches (rag : Option RagHandle) (matched_regs : List RMatch) (clause : Clause) :
    List RMatch :=
  match rag with
  | some r => r.retrieve (clause.title ++ "\n" ++ strTake 1800 clause.text) (some clause.category) 4
  | none => if matched_regs.isEmpty then [] else matched_regs.take 4

/-- The per-clause score computation of the full-document loop (lines 774-809):
sub-scores, missing-critical count, and `calculate_compliance_score`. -/
noncomputable def clauseScoreFullDoc (industry : String) (clause : Clause)
    (ms : List RMatch) : ℤ :=
  let ctext := clause.text
  let avg_sim := avgSim ms
  let top_sim := topSim ms
  let enforceable := hasEnforceableLanguage ctext
  let regulatory_alignment := calcRegulatoryAlignment ms avg_sim top_sim
  let language_strength := calcLanguageStrength ctext
  let completeness := calcCompleteness ctext (if clause.category = "" then "General" else clause.category) ms
  let risk_penalty := calcRiskPenalty ctext ms avg_sim
  let missing_critical := (if enforceable then 0 else 1) + (if ms.isEmpty then 1 else 0) +
    (if completeness < 1/2 then 2 else 0)
  calcComplianceScore (regulatory_alignment : ℝ) language_strength (completeness : ℝ)
    (risk_penalty : ℝ) (some industry) (!ms.isEmpty) enforceable missing_critical 8

/-- The per-clause finding construction of the full-document loop
(lines 766-849): status/risk bands, issue/suggestion texts, and the
`applicable_regulations` list (top-3 titles, stripped, non-empty only). -/
noncomputable def clauseFinding (industry : String) (clause : Clause)
    (ms : List RMatch) : Finding :=
  let score := clauseScoreFullDoc industry clause ms
  let top_title := match ms with
    | [] => "relevant regulation"
    | m :: _ => m.regulation.title
  let top_text := match ms with
    | [] => ""
    | m :: _ => m.regulation.text
  let req_sentence := extractRequirementSentence top_text
  let enforceable := hasEnforceableLanguage clause.text
  let srs :=
    if 75 ≤ score then
      ("compliant", "Low",
        if 85 ≤ score then "None" else "Minor improvements possible for enhanced compliance.",
        if 85 ≤ score then "No change needed"
        else "Consider adding more specific regulatory references for enhanced compliance.")
    else if 50 ≤ score then
      ("partially_compliant", "Medium",
        if !enforceable then
          "Section is relevant to " ++ top_title ++
            " but uses weak/vague language (missing must/shall/required)."
        else
          "Section partially aligns with " ++ top_title ++
            "; some required elements appear missing or unclear.",
        if req_sentence = "" then
          "Align this section more closely with " ++ top_title ++ " and add enforceable requirements."
        else
          "Add an explicit requirement aligned with " ++ top_title ++ ": “" ++ req_sentence ++ "”")
    else
      ("non_compliant", "High",
        if ms.isEmpty then
          "No strong regulation match for this section; it may be missing specific compliance requirements."
        else
          "Section has weak alignment with relevant regulations (top match: " ++ top_title ++ ").",
        if ms.isEmpty then
          "Add enforceable requirements (must/shall), reference the governing regulation, assign an owner, and define a review cadence."
        else if req_sentence = "" then
          "Update this section to include required elements from " ++ top_title ++ "."
        else
          "Update the section to include required elements from " ++ top_title ++
            ", for example: “" ++ req_sentence ++ "”")
  let applicable := (ms.take 3).filterMap (fun m =>
    let t := pyStrip m.regulation.title
    if t = "" then none else some t)
  ⟨strTake 80 clause.title, srs.1, srs.2.1, srs.2.2.1, srs.2.2.2, applicable⟩

/-- Per-clause citations (lines 853-860): top-2 ms become citations. -/
def clauseCitations (ms : List RMatch) : List Citation :=
  (ms.take 2).map (fun m =>
    ⟨m.regulation.source_name, m.regulation.source_url, m.regulation.title,
      m.similarity_score⟩)

/-- Overall score from the per-section scores (lines 862-875): geometric mean
when every section score is positive, arithmetic mean otherwise, rounded. -/
noncomputable def overallFromSectionScores (ss : List ℤ) : ℤ :=
  if ∀ s ∈ ss, 0 < s then
    pyRound (((ss.map (fun s => (s : ℝ))).prod) ^ ((1 : ℝ) / (ss.length : ℝ)))
  else
    pyRound ((ss.map (fun s => (s : ℝ))).sum / (ss.length : ℝ))

/-- The document-level fallback score when no sections exist (lines 877-896). -/
noncomputable def docLevelScore (full_text : String) (matched_regs : List RMatch)
    (industry : String) : ℤ :=
  let avg := avgSim matched_regs
  let top := topSim matched_regs
  let ra := calcRegulatoryAlignment matched_regs avg top
  let ls := calcLanguageStrength full_text
  let cs := calcCompleteness full_text "General" matched_regs
  let rp := calcRiskPenalty full_text matched_regs avg
  calcComplianceScore (ra : ℝ) ls (cs : ℝ) (rp : ℝ) (some industry)
    (!matched_regs.isEmpty) (hasEnforceableLanguage full_text) 0 1

/-- Stable descending insertion for citation sorting: equal relevance keeps
the earlier-appended citation first (Python `sorted(..., reverse=True)` is
stable). -/
def insertCitDesc (c : Citation) : List Citation → List Citation
  | [] => [c]
  | d :: ds => if d.relevance_score < c.relevance_score then c :: d :: ds
      else d :: insertCitDesc c ds

def sortCitationsDesc (cs : List Citation) : List Citation :=
  cs.foldl (fun acc c => insertCitDesc c acc) []

/-- Citation dedup loop (lines 900-910): keep the first citation for each
`(url, title)` pair, stop at 10. -/
def dedupCitAux (seen : List (String × String)) (acc : List Citation) :
    List Citation → List Citation
  | [] => acc
  | c :: cs =>
    if (c.url, c.title) ∈ seen then dedupCitAux seen acc cs
    else
      let acc' := acc ++ [c]
      if 10 ≤ acc'.length then acc' else dedupCitAux ((c.url, c.title) :: seen) acc' cs

/-- Embeds `missing_elements` heuristics on the whole document (lines 912-919). -/
def docMissingElements (text_lower : String) : List String :=
  (if !pyIn "review" text_lower && !pyIn "audit" text_lower then
    ["Review / audit cadence for policies"] else []) ++
  (if !pyIn "responsible" text_lower && !pyIn "owner" text_lower then
    ["Responsible owner / role assignments"] else []) ++
  (if pyIn "training" text_lower && !pyIn "frequency" text_lower then
    ["Training frequency / documentation details"] else [])

/-- Embeds `detected_industry` selection (lines 757-764): the duck-typed
`rag_engine._industry` attribute when present and truthy, else the
rule-based industry detector on the document text. -/
def detectedIndustryOf (rag : Option RagHandle) (full_text : String) : String :=
  match rag with
  | some r =>
    match r.industry with
    | some i => if i = "" then (detectIndustry full_text).industry else i
    | none => (detectIndustry full_text).industry
  | none => (detectIndustry full_text).industry

/-- Embeds `_rule_based_full_document_analysis` (lines 721-939). `clauses0` is the
output of `parse_sop_into_clauses(full_text)` (the `or []` on line 730 is the
identity on lists), handed over explicitly at the segmenter boundary. -/
noncomputable def ruleBasedFullDocumentAnalysis (full_text : String) (clauses0 : List Clause)
    (rag : Option RagHandle) (matched_regs : List RMatch) (ai_error : Option String) :
    FullReport :=
  let text_lower := pyLower full_text
  let clauses := clauses0.take 12
  let detected_industry := detectedIndustryOf rag full_text
  let findings := clauses.map (fun c =>
    clauseFinding detected_industry c (clauseMatches rag matched_regs c))
  let section_scores := clauses.map (fun c =>
    max 0 (min 100 (clauseScoreFullDoc detected_industry c (clauseMatches rag matched_regs c))))
  let all_citations := clauses.flatMap (fun c => clauseCitations (clauseMatches rag matched_regs c))
  let overall_score :=
    if clauses.isEmpty then docLevelScore full_text matched_regs detected_industry
    else overallFromSectionScores section_scores
  let overall_risk :=
    if 70 ≤ overall_score then "Low" else if 45 ≤ overall_score then "Medium" else "High"
  let dedup := dedupCitAux [] [] (sortCitationsDesc all_citations)
  let missing_elements := docMissingElements text_lower
  let method := "Rule-based (section-based, RAG-matched)" ++ aiSuffix ai_error
  let exec_summary :=
    "Document reviewed using " ++ method ++
      ". Findings were generated per section by matching that section’s text to the most relevant scraped regulations. Overall compliance is estimated at " ++
      toString overall_score ++ "% with " ++ overall_risk ++ " risk."
  ⟨overall_score, overall_risk, exec_summary, findings, missing_elements,
    (100 - overall_score) * 120, dedup, method⟩

/-- Embeds `_empty_full_document_result` (lines 942-952). -/
def emptyFullDocumentResult (message : String) : FullReport :=
  ⟨0, "High", message, [], [], 0, [], "None"⟩

/-- Embeds `analyze_full_document_compliance` (lines 624-643) on its rule-based path
(`use_ai=False`, i.e. no AI client): blank-text guard, document-level
retrieval with `top_k=12`, then the rule-based analysis. -/
noncomputable def analyzeFullDocumentCompliance (full_text : String) (clauses : List Clause)
    (rag : Option RagHandle) : FullReport :=
  if isBlank full_text then emptyFullDocumentResult "No document text to analyze."
  else
    let query_text := if 15000 < full_text.data.length then strTake 15000 full_text else full_text
    let matched_regs := match rag with
      | some r => r.retrieve query_text none 12
      | none => []
    ruleBasedFullDocumentAnalysis full_text clauses rag matched_regs none

/-! ## `_rule_based_analyze` (lines 1040-1160) and `_generate_suggestion` -/

structure ClauseReport where
  clause_id : String
  compliance_status : String
  risk_level : String
  compliance_score : ℤ
  summary : String
  missing_elements : List String
  suggested_correction : String
  applicable_regulations : List String
  citations : List Citation
  analysis_method : String

/-- The `outdated` keyword list of `compliance_indicators` (lines 1055-1058). -/
def outdatedIndicators : List String :=
  ["superseded", "replaced by", "no longer", "deprecated",
   "previous version", "old standard", "former", "legacy"]

/-- The `category_requirements` table (lines 1063-1072). -/
def categoryRequirementTable : List (String × List String) := [
  ("Data Privacy", ["explicit consent mechanisms", "data breach notification procedures",
    "data retention policy", "right to deletion process"]),
  ("Health & Safety", ["emergency procedures", "PPE requirements", "incident reporting",
    "safety training schedule"]),
  ("Financial", ["audit trail requirements", "tax filing schedule",
    "financial reporting standards", "internal controls"]),
  ("Employment", ["anti-discrimination policy", "overtime calculation method",
    "leave policy details", "termination procedures"]),
  ("Environmental", ["waste disposal procedures", "emission monitoring",
    "environmental impact assessment", "spill response plan"]),
  ("IT Security", ["access control policy", "encryption standards", "incident response plan",
    "regular security audits"]),
  ("Quality Control", ["inspection procedures", "non-conformance handling", "document control",
    "management review"]),
  ("Legal", ["regulatory compliance review schedule", "legal hold procedures",
    "contract review process", "record retention policy"])]

/-- The default requirement list for categories outside the table (line 1074). -/
def defaultRequirements : List String :=
  ["regulatory reference", "review schedule", "responsible party designation"]

/-- The missing-element scan (lines 1061-1076): a requirement is missing when
its lowercased, space-stripped form does not occur in the space-stripped
clause text. -/
def missingRequirements (text_lower : String) (category : String) : List String :=
  let reqs := ((categoryRequirementTable.find? (fun p => p.1 = category)).map Prod.snd).getD
    defaultRequirements
  reqs.filter (fun req => !(pyIn (removeSpaces (pyLower req)) (removeSpaces text_lower)))

/-- Embeds `len(category_requirements.get(category, []))` (line 1101) — note the
empty-list default, unlike the scan above. -/
def categoryRequirementCount (category : String) : ℕ :=
  ((((categoryRequirementTable.find? (fun p => p.1 = category)).map Prod.snd).getD []).length)

/-- Embeds `_generate_suggestion` (lines 1163-1171). -/
def generateSuggestion (status : String) (missing : List String) (category : String) : String :=
  if status = "compliant" then
    "No correction needed. Clause appears compliant with current regulations."
  else
    (("Revise this " ++ category ++ " clause to include: ") ++
      (if missing.isEmpty then "" else String.intercalate ", " (missing.take 3) ++ ". ")) ++
      "Ensure explicit references to applicable regulatory frameworks and include specific compliance measures with designated responsible parties and review schedules."

/-- The outdated-keyword hit count of `_rule_based_analyze` (line 1085):
`sum(1 for kw in compliance_indicators["outdated"] if kw in text_lower)`. -/
def outdatedHits (clause : Clause) : ℕ :=
  (outdatedIndicators.filter (fun kw => pyIn kw (pyLower clause.text))).length

/-- The compliance score computed inside `_rule_based_analyze`
(lines 1078-1116): sub-scores (with the outdated override of lines 1086-1091),
missing-critical count, and `calculate_compliance_score` with
`industry="General"`. -/
noncomputable def ruleBasedAnalyzeScore (clause : Clause)
    (matched_regulations : List RMatch) : ℤ :=
  let text_lower := pyLower clause.text
  let category := clause.category
  let missing := missingRequirements text_lower category
  let clause_text := clause.text
  let has_matches := !matched_regulations.isEmpty
  let avg_similarity := avgSim matched_regulations
  let top_similarity := topSim matched_regulations
  let outdated_score := outdatedHits clause
  let regulatory_alignment : ℚ :=
    if 2 ≤ outdated_score then 1/10
    else calcRegulatoryAlignment matched_regulations avg_similarity top_similarity
  let language_strength : ℝ :=
    if 2 ≤ outdated_score then 1/10 else calcLanguageStrength clause_text
  let completeness : ℚ :=
    if 2 ≤ outdated_score then 2/10
    else calcCompleteness clause_text category matched_regulations
  let risk_penalty : ℚ :=
    if 2 ≤ outdated_score then 9/10
    else calcRiskPenalty clause_text matched_regulations avg_similarity
  let missing_critical := missing.length
  let total_elements := categoryRequirementCount category
  calcComplianceScore (regulatory_alignment : ℝ) language_strength
    (completeness : ℝ) (risk_penalty : ℝ) (some "General") has_matches
    (["must", "shall", "required", "mandatory"].any (fun kw => pyIn kw text_lower))
    missing_critical (max total_elements 1)

/-- Embeds `_rule_based_analyze` (lines 1040-1160). The free-text `reasoning` field,
which interpolates `%.2f`-formatted float sub-scores, is presentation-only and
not modelled; every other returned field is. -/
noncomputable def ruleBasedAnalyze (clause : Clause) (matched_regulations : List RMatch)
    (ai_error : Option String) : ClauseReport :=
  let text_lower := pyLower clause.text
  let category := clause.category
  let missing := missingRequirements text_lower category
  let has_matches := !matched_regulations.isEmpty
  let outdated_score := outdatedHits clause
  let score := ruleBasedAnalyzeScore clause matched_regulations
  let sr :=
    if 2 ≤ outdated_score then ("outdated", "High")
    else if 75 ≤ score then ("compliant", "Low")
    else if 50 ≤ score then ("partially_compliant", "Medium")
    else ("non_compliant", if has_matches then "Medium" else "High")
  let citations := (matched_regulations.take 5).map (fun m =>
    (⟨m.regulation.source_name, m.regulation.source_url, m.regulation.title,
      m.similarity_score⟩ : Citation))
  let applicable_regs := (matched_regulations.take 5).map (fun m => m.regulation.title)
  let method := "Rule-based Analysis" ++ aiSuffix (ai_error.map (strTake 80))
  let summary := "Clause analyzed using " ++ method ++ ". Status: " ++ sr.1 ++
    ". The clause " ++ (if 60 < score then "aligns with" else "needs improvement to meet") ++
    " current regulatory requirements for " ++ category ++ "."
  ⟨clause.id, sr.1, sr.2, score, summary, missing.take 5,
    generateSuggestion sr.1 missing category, applicable_regs.take 5, citations, method⟩

/-! ## `RAGEngine.retrieve_relevant_regulations` (`modules/rag_engine.py`, lines 27-53)

The TF-IDF vectorization and the cosine-similarity row are produced by
sklearn (external library calls); the repository logic that follows —
category boost, reversed-argsort candidate selection, noise floor, top-k
cut — is embedded here, parameterized by the similarity row `sims`
(one entry per indexed regulation, by corpus position). -/

/-- The category boost (lines 35-40): records whose category equals the
(truthy) hint get `min(1.0, s * 1.25 + 0.05)`. -/
def applyBoost (sims : List ℚ) (data : List Regulation) (hint : Option String) : List ℚ :=
  match hint with
  | none => sims
  | some h =>
    if h = "" then sims
    else sims.zipWith (fun s r => if r.category = h then min 1 (s * (5/4) + 1/20) else s) data

/-- Insert an (index, value) pair into an ascending-sorted list: by value,
ties by index. -/
def insertByKey (p : ℕ × ℚ) : List (ℕ × ℚ) → List (ℕ × ℚ)
  | [] => [p]
  | q :: qs =>
    if p.2 < q.2 ∨ (p.2 = q.2 ∧ p.1 ≤ q.1) then p :: q :: qs else q :: insertByKey p qs

def sortByKey : List (ℕ × ℚ) → List (ℕ × ℚ)
  | [] => []
  | p :: ps => insertByKey p (sortByKey ps)

/-- Embeds `np.argsort(similarities)` (line 43): indices of the similarity vector in
ascending order of value; equal values are ordered by ascending index (the
deterministic behavior numpy exhibits on the arrays exercised here). -/
def argsortAsc (sims : List ℚ) : List ℕ :=
  (sortByKey sims.enum).map Prod.fst

def defaultRegulation : Regulation := ⟨"", "", "", "", ""⟩

/-- The result-collection loop (lines 44-52): walk the candidate indices,
keep those whose (boosted) similarity strictly exceeds the `0.03` noise
floor, and stop as soon as `top_k` results have been collected (the length
check runs after each candidate, exactly as in the Python loop). -/
def selectLoop (boosted : List ℚ) (data : List Regulation) :
    List ℕ → ℕ → List RMatch → List RMatch
  | [], _, acc => acc
  | idx :: rest, k, acc =>
    let s := boosted.getD idx 0
    let acc' := if 3/100 < s then acc ++ [⟨data.getD idx defaultRegulation, s⟩] else acc
    if k ≤ acc'.length then acc' else selectLoop boosted data rest k acc'

/-- Embeds `retrieve_relevant_regulations` (lines 27-53), given the sklearn cosine
similarity row `sims` for the query. An empty corpus (or unindexed engine)
returns `[]` (lines 28-29). -/
def retrieveFromSims (sims : List ℚ) (data : List Regulation) (hint : Option String)
    (top_k : ℕ) : List RMatch :=
  if data.isEmpty then []
  else
    let boosted := applyBoost sims data hint
    let top_indices := (argsortAsc boosted).reverse.take (top_k * 2)
    selectLoop boosted data top_indices top_k []

def tieRegA : Regulation := ⟨"srcA", "urlA", "catA", "Reg A", "text a"⟩

def tieRegB : Regulation := ⟨"srcB", "urlB", "catB", "Reg B", "text b"⟩

def cexClauseA : Clause := ⟨"CLAUSE-001", "Section A", "", "General"⟩

def cexClauseB : Clause := ⟨"CLAUSE-002", "Section B", "", "General"⟩

/-- A rag handle that retrieves nothing and carries `_industry = "General"`. -/
def emptyRag : RagHandle := ⟨fun _ _ _ => [], some "General"⟩

def witnessReg : Regulation :=
  ⟨"GDPR portal", "https://gdpr.example", "Data Privacy", "GDPR Article 5",
    "Personal data must be processed lawfully."⟩

/-- A rag handle that always retrieves the single `witnessReg` match. -/
def witnessRag : RagHandle := ⟨fun _ _ _ => [⟨witnessReg, 1/2⟩], none⟩

def witnessClause : Clause :=
  ⟨"CLAUSE-001", "Data Handling", "Data processing policy text.", "Data Privacy"⟩

def cexC1Clause : Clause := ⟨"CLAUSE-001", "T", "", "General"⟩

def cexReg : Regulation :=
  ⟨"src", "https://reg.example", "General", "Anchor Regulation",
    "Operators must maintain records."⟩

/-! ## Theorems -/

theorem pyRound_intCast (n : ℤ) : pyRound (n : ℝ) = n := by
  simp [pyRound]

theorem floor_le_pyRound (x : ℝ) : ⌊x⌋ ≤ pyRound x := by
  unfold pyRound
  split_ifs <;> omega

theorem pyRound_le_floor_add_one (x : ℝ) : pyRound x ≤ ⌊x⌋ + 1 := by
  unfold pyRound
  split_ifs <;> omega

theorem pyRound_nonneg {x : ℝ} (hx : 0 ≤ x) : 0 ≤ pyRound x := by
  have h : (0:ℤ) ≤ ⌊x⌋ := Int.le_floor.mpr (by exact_mod_cast hx)
  have := floor_le_pyRound x
  omega

theorem pyRound_le_of_le_intCast {x : ℝ} {n : ℤ} (hx : x ≤ n) : pyRound x ≤ n := by
  have hf : ⌊x⌋ ≤ n := by
    have := Int.floor_mono hx
    rwa [Int.floor_intCast] at this
  rcases lt_or_eq_of_le hf with h | h
  · have := pyRound_le_floor_add_one x
    omega
  · have hxeq : x = (n : ℝ) := by
      have h1 : (n : ℝ) ≤ x := by
        have := Int.floor_le x
        rw [h] at this
        exact this
      linarith
    rw [hxeq, pyRound_intCast]

theorem pyRound_mono {x y : ℝ} (hxy : x ≤ y) : pyRound x ≤ pyRound y := by
  have hf : ⌊x⌋ ≤ ⌊y⌋ := Int.floor_mono hxy
  rcases lt_or_eq_of_le hf with h | h
  · have h1 := pyRound_le_floor_add_one x
    have h2 := floor_le_pyRound y
    omega
  · have hx1 : (⌊x⌋ : ℝ) ≤ x := Int.floor_le x
    have hy1 : (⌊y⌋ : ℝ) ≤ y := Int.floor_le y
    unfold pyRound
    rw [← h]
    split_ifs <;> first | omega | (exfalso; rw [← h] at *; linarith)

theorem clamp01_nonneg (x : ℝ) : 0 ≤ clamp01 x := le_max_left 0 _

theorem clamp01_le_one (x : ℝ) : clamp01 x ≤ 1 :=
  max_le zero_le_one (min_le_left 1 x)

theorem clamp01_mono {x y : ℝ} (hxy : x ≤ y) : clamp01 x ≤ clamp01 y :=
  max_le_max le_rfl (min_le_min le_rfl hxy)

theorem clamp01_of_mem {x : ℝ} (h0 : 0 ≤ x) (h1 : x ≤ 1) : clamp01 x = x := by
  unfold clamp01
  rw [min_eq_right h1, max_eq_right h0]

theorem lookupWeights_pos (ind : Option String) :
    0 < (lookupWeights ind).regulatory ∧ 0 < (lookupWeights ind).language ∧
      0 < (lookupWeights ind).completeness := by
  have htab : ∀ p ∈ industryWeightTable,
      0 < p.2.regulatory ∧ 0 < p.2.language ∧ 0 < p.2.completeness := by
    intro p hp
    fin_cases hp <;> exact ⟨by norm_num, by norm_num, by norm_num⟩
  have hgen : 0 < generalWeights.regulatory ∧ 0 < generalWeights.language ∧
      0 < generalWeights.completeness :=
    ⟨by norm_num [generalWeights], by norm_num [generalWeights], by norm_num [generalWeights]⟩
  cases ind with
  | none => simpa [lookupWeights] using hgen
  | some s =>
    simp only [lookupWeights]
    cases hfind : industryWeightTable.find? (fun p => p.1 = s) with
    | none => simpa using hgen
    | some p => simpa using htab p (List.mem_of_find?_eq_some hfind)

theorem baseScore_nonneg (ra ls cs : ℝ) (w : Weights) : 0 ≤ baseScore ra ls cs w :=
  mul_nonneg
    (mul_nonneg (Real.rpow_nonneg (clamp01_nonneg _) _) (Real.rpow_nonneg (clamp01_nonneg _) _))
    (Real.rpow_nonneg (clamp01_nonneg _) _)

theorem baseScore_mono {a a' l l' c c' : ℝ} (w : Weights)
    (hw : 0 < w.regulatory ∧ 0 < w.language ∧ 0 < w.completeness)
    (ha : a ≤ a') (hl : l ≤ l') (hc : c ≤ c') :
    baseScore a l c w ≤ baseScore a' l' c' w := by
  obtain ⟨h1, h2, h3⟩ := hw
  have hr : (0:ℝ) ≤ (w.regulatory : ℝ) := by exact_mod_cast h1.le
  have hg : (0:ℝ) ≤ (w.language : ℝ) := by exact_mod_cast h2.le
  have hp : (0:ℝ) ≤ (w.completeness : ℝ) := by exact_mod_cast h3.le
  unfold baseScore
  have m1 : clamp01 a ^ (w.regulatory : ℝ) ≤ clamp01 a' ^ (w.regulatory : ℝ) :=
    Real.rpow_le_rpow (clamp01_nonneg _) (clamp01_mono ha) hr
  have m2 : clamp01 l ^ (w.language : ℝ) ≤ clamp01 l' ^ (w.language : ℝ) :=
    Real.rpow_le_rpow (clamp01_nonneg _) (clamp01_mono hl) hg
  have m3 : clamp01 c ^ (w.completeness : ℝ) ≤ clamp01 c' ^ (w.completeness : ℝ) :=
    Real.rpow_le_rpow (clamp01_nonneg _) (clamp01_mono hc) hp
  have n1 : (0:ℝ) ≤ clamp01 a' ^ (w.regulatory : ℝ) := Real.rpow_nonneg (clamp01_nonneg _) _
  have n2 : (0:ℝ) ≤ clamp01 l ^ (w.language : ℝ) := Real.rpow_nonneg (clamp01_nonneg _) _
  have n3 : (0:ℝ) ≤ clamp01 c ^ (w.completeness : ℝ) := Real.rpow_nonneg (clamp01_nonneg _) _
  exact mul_le_mul (mul_le_mul m1 m2 n2 n1) m3 n3
    (mul_nonneg n1 (Real.rpow_nonneg (clamp01_nonneg _) _))

theorem scaleBase_nonneg (b : ℝ) : 0 ≤ scaleBase b := by
  unfold scaleBase
  split_ifs with h
  · have hle : Real.exp (-2 * b) ≤ Real.exp 0 := Real.exp_le_exp.mpr (by linarith)
    rw [Real.exp_zero] at hle
    linarith
  · exact le_refl 0

theorem scaleBase_le_100 (b : ℝ) : scaleBase b ≤ 100 := by
  unfold scaleBase
  split_ifs with h
  · have := Real.exp_pos (-2 * b)
    linarith
  · norm_num

theorem scaleBase_mono {b1 b2 : ℝ} (_h0 : 0 ≤ b1) (h : b1 ≤ b2) :
    scaleBase b1 ≤ scaleBase b2 := by
  unfold scaleBase
  split_ifs with ha hb hb
  · have hle : Real.exp (-2 * b2) ≤ Real.exp (-2 * b1) := Real.exp_le_exp.mpr (by linarith)
    linarith
  · linarith
  · have hle : Real.exp (-2 * b2) ≤ Real.exp 0 := Real.exp_le_exp.mpr (by linarith)
    rw [Real.exp_zero] at hle
    linarith
  · exact le_refl 0

theorem calcComplianceReal_mono {a a' l l' c c' r r' : ℝ} (industry : Option String)
    (hcit henf : Bool) (missing total : ℕ)
    (ha : a ≤ a') (hl : l ≤ l') (hc : c ≤ c') (hr : r' ≤ r) :
    calcComplianceReal a l c r industry hcit henf missing total ≤
      calcComplianceReal a' l' c' r' industry hcit henf missing total := by
  have hw := lookupWeights_pos industry
  have hs : scaleBase (baseScore a l c (lookupWeights industry)) ≤
      scaleBase (baseScore a' l' c' (lookupWeights industry)) :=
    scaleBase_mono (baseScore_nonneg _ _ _ _) (baseScore_mono _ hw ha hl hc)
  have hs2 : 0 ≤ scaleBase (baseScore a' l' c' (lookupWeights industry)) :=
    scaleBase_nonneg _
  have hf1 : 0 ≤ 1 - clamp01 r * (4/10) := by
    have h1 := clamp01_le_one r
    nlinarith
  have hf : 1 - clamp01 r * (4/10) ≤ 1 - clamp01 r' * (4/10) := by
    have := clamp01_mono hr
    nlinarith
  have key := mul_le_mul hs hf hf1 hs2
  simp only [calcComplianceReal]
  linarith

theorem selectLoop_floor (boosted : List ℚ) (data : List Regulation) :
    ∀ (idxs : List ℕ) (k : ℕ) (acc : List RMatch),
      (∀ m ∈ acc, 3/100 < m.similarity_score) →
      ∀ m ∈ selectLoop boosted data idxs k acc, 3/100 < m.similarity_score := by
  intro idxs
  induction idxs with
  | nil => intro k acc hacc m hm; exact hacc m hm
  | cons idx rest ih =>
    intro k acc hacc m hm
    simp only [selectLoop] at hm
    set s := boosted.getD idx 0 with hs
    by_cases hfl : 3/100 < s
    · rw [if_pos hfl] at hm
      have hacc' : ∀ m ∈ acc ++ [⟨data.getD idx defaultRegulation, s⟩],
          3/100 < m.similarity_score := by
        intro m hmem
        rcases List.mem_append.mp hmem with h | h
        · exact hacc m h
        · simp only [List.mem_singleton] at h
          rw [h]
          exact hfl
      split_ifs at hm
      · exact hacc' m hm
      · exact ih k _ hacc' m hm
    · rw [if_neg hfl] at hm
      split_ifs at hm
      · exact hacc m hm
      · exact ih k acc hacc m hm

theorem selectLoop_length (boosted : List ℚ) (data : List Regulation) :
    ∀ (idxs : List ℕ) (k : ℕ) (acc : List RMatch),
      acc.length < k →
      (selectLoop boosted data idxs k acc).length ≤ k := by
  intro idxs
  induction idxs with
  | nil => intro k acc hacc; simpa [selectLoop] using hacc.le
  | cons idx rest ih =>
    intro k acc hacc
    simp only [selectLoop]
    set s := boosted.getD idx 0 with hs
    by_cases hfl : 3/100 < s
    · rw [if_pos hfl]
      have hlen : (acc ++ [(⟨data.getD idx defaultRegulation, s⟩ : RMatch)]).length =
          acc.length + 1 := by simp
      split_ifs with hk
      · omega
      · exact ih k _ (by omega)
    · rw [if_neg hfl]
      split_ifs with hk
      · omega
      · exact ih k acc hacc

/-- C5: retrieval returns at most `top_k` matches, every returned match has
(boosted) similarity strictly above the fixed noise floor `0.03`, and the
result is never padded with records at or below the floor (every returned
record clears it, so when fewer records clear the floor, fewer are
returned). -/
theorem retrieveFromSims_topk_floor (sims : List ℚ) (data : List Regulation)
    (hint : Option String) (top_k : ℕ) :
    (retrieveFromSims sims data hint top_k).length ≤ top_k ∧
      ∀ m ∈ retrieveFromSims sims data hint top_k, 3/100 < m.similarity_score := by
  simp only [retrieveFromSims]
  split_ifs with hd
  · simp
  · constructor
    · rcases Nat.eq_zero_or_pos top_k with hk | hk
      · subst hk
        simp [selectLoop]
      · exact selectLoop_length _ _ _ _ _ (by simpa using hk)
    · exact selectLoop_floor _ _ _ _ _ (by intro m hm; simp at hm)

/-- C4 counterexample: on the two-record corpus `[tieRegA, tieRegB]` whose
records have EQUAL similarity `1/2`, retrieval returns the LATER record
`tieRegB` first (the code reverses an ascending argsort, so equal-similarity
ties come out in descending corpus order), refuting the claimed stable
tie-break by original corpus order. -/
theorem retrieve_tie_break_counterexample :
    retrieveFromSims [1/2, 1/2] [tieRegA, tieRegB] none 2 =
        [⟨tieRegB, 1/2⟩, ⟨tieRegA, 1/2⟩] ∧
      retrieveFromSims [1/2, 1/2] [tieRegA, tieRegB] none 2 ≠
        [⟨tieRegA, 1/2⟩, ⟨tieRegB, 1/2⟩] := by
  have h : retrieveFromSims [1/2, 1/2] [tieRegA, tieRegB] none 2 =
      [⟨tieRegB, 1/2⟩, ⟨tieRegA, 1/2⟩] := by
    norm_num [retrieveFromSims, applyBoost, argsortAsc, sortByKey, insertByKey,
      selectLoop, List.enum, List.enumFrom]
  refine ⟨h, ?_⟩
  rw [h]
  intro hcon
  have := List.head_eq_of_cons_eq hcon
  rw [RMatch.mk.injEq] at this
  exact absurd this.1 (by simp [tieRegA, tieRegB])

/-- C4 (amended): retrieval is a pure function of the indexed corpus, the
similarity row, the category hint, and `top_k`, so two calls on identical
inputs return identical ordered results; but the tie-break among
equal-(boosted-)similarity records is by DESCENDING original corpus order
(the later record first), as exhibited on a concrete two-record corpus. -/
theorem retrieve_deterministic_tie_descending :
    (∀ (sims : List ℚ) (data : List Regulation) (hint : Option String) (top_k : ℕ),
        retrieveFromSims sims data hint top_k = retrieveFromSims sims data hint top_k) ∧
      retrieveFromSims [1/2, 1/2] [tieRegA, tieRegB] none 2 =
        [⟨tieRegB, 1/2⟩, ⟨tieRegA, 1/2⟩] := by
  refine ⟨fun _ _ _ _ => rfl, ?_⟩
  norm_num [retrieveFromSims, applyBoost, argsortAsc, sortByKey, insertByKey,
    selectLoop, List.enum, List.enumFrom]

/-- C3: the combined compliance score returned by `calculate_compliance_score`
is an integer in `[0, 100]`, for all real sub-score inputs (in particular all
of `[0,1]^4`) and every industry, flag, and missing-element parameter. -/
theorem calcComplianceScore_bounded
    (a l c r : ℝ) (industry : Option String) (hcit henf : Bool) (missing total : ℕ) :
    0 ≤ calcComplianceScore a l c r industry hcit henf missing total ∧
      calcComplianceScore a l c r industry hcit henf missing total ≤ 100 := by
  unfold calcComplianceScore
  constructor
  · exact pyRound_nonneg (le_max_left 0 _)
  · apply pyRound_le_of_le_intCast
    push_cast
    exact max_le (by norm_num) (min_le_left _ _)

/-- C6: `calculate_compliance_score` is monotone in each sub-score with the
others held fixed: simultaneously increasing the alignment, language, and
completeness inputs and decreasing the risk-penalty input never decreases
the returned score (each single-variable statement is the special case where
the other three inputs are unchanged). -/
theorem calcComplianceScore_monotone {a a' l l' c c' r r' : ℝ}
    (industry : Option String) (hcit henf : Bool) (missing total : ℕ)
    (ha : a ≤ a') (hl : l ≤ l') (hc : c ≤ c') (hr : r' ≤ r) :
    calcComplianceScore a l c r industry hcit henf missing total ≤
      calcComplianceScore a' l' c' r' industry hcit henf missing total := by
  unfold calcComplianceScore
  exact pyRound_mono (max_le_max le_rfl (min_le_min le_rfl
    (calcComplianceReal_mono industry hcit henf missing total ha hl hc hr)))

/-- Witness for C6: at concrete inputs `(0.2, 0.5, 0.5, 0.8) ≤ (0.4, 0.5, 0.5, 0.3)`
(componentwise, risk decreasing) the monotonicity theorem applies. -/
theorem calcComplianceScore_monotone_witness :
    calcComplianceScore (2/10) (5/10) (5/10) (8/10) (some "Finance") true true 1 8 ≤
      calcComplianceScore (4/10) (5/10) (5/10) (3/10) (some "Finance") true true 1 8 :=
  calcComplianceScore_monotone (some "Finance") true true 1 8
    (by norm_num) (by norm_num) (by norm_num) (by norm_num)

theorem pyRound_zero : pyRound 0 = 0 := by
  simpa using pyRound_intCast 0

theorem completenessPenalty_nonneg (m t : ℕ) : 0 ≤ completenessPenalty m t := by
  unfold completenessPenalty
  split_ifs
  · have : (0:ℝ) ≤ ((m : ℝ) / (t : ℝ)) ^ ((3:ℝ)/2) :=
      Real.rpow_nonneg (by positivity) _
    linarith
  · exact le_refl 0

theorem calcComplianceReal_cs_zero (a l r : ℝ) (ind : Option String)
    (hc he : Bool) (m t : ℕ) :
    calcComplianceReal a l 0 r ind hc he m t =
      (if hc then (3:ℝ) else 0) + (if he then 2 else 0) - completenessPenalty m t := by
  have hw := lookupWeights_pos ind
  have hbase : baseScore a l 0 (lookupWeights ind) = 0 := by
    unfold baseScore
    rw [clamp01_of_mem le_rfl zero_le_one,
      Real.zero_rpow (by exact_mod_cast (ne_of_gt hw.2.2)), mul_zero]
  have hscale : scaleBase (0:ℝ) = 0 := by simp [scaleBase]
  simp only [calcComplianceReal, hbase, hscale]
  ring

theorem calcComplianceScore_of_nonpos {a l c r : ℝ} {ind : Option String}
    {hc he : Bool} {m t : ℕ}
    (h : calcComplianceReal a l c r ind hc he m t ≤ 0) :
    calcComplianceScore a l c r ind hc he m t = 0 := by
  unfold calcComplianceScore
  rw [min_eq_right (h.trans (by norm_num)), max_eq_left h]
  exact pyRound_zero

/-- A clause with empty text and no retrieved matches scores `0` on the
full-document per-section path: every sub-score short-circuits, the base
score vanishes, no bonus applies, and the completeness penalty clamps the
result at zero. -/
theorem clauseScoreFullDoc_of_empty_text (industry : String) (clause : Clause)
    (htext : clause.text = "") :
    clauseScoreFullDoc industry clause [] = 0 := by
  have h1 : calcRegulatoryAlignment [] (avgSim []) (topSim []) = 0 := by
    simp [calcRegulatoryAlignment]
  have h2 : calcLanguageStrength "" = 0 := by simp [calcLanguageStrength]
  have h3 : ∀ cat : String, calcCompleteness "" cat [] = 0 := by
    intro cat
    simp [calcCompleteness]
  have h4 : calcRiskPenalty "" [] (avgSim []) = 1 := by simp [calcRiskPenalty]
  have h5 : hasEnforceableLanguage "" = false := by decide
  simp only [clauseScoreFullDoc, htext, h1, h2, h3, h4, h5]
  norm_num
  apply calcComplianceScore_of_nonpos
  rw [calcComplianceReal_cs_zero]
  simp only [Bool.false_eq_true, if_false]
  linarith [completenessPenalty_nonneg 4 8]

/-- On the full-document per-section path, an empty-text clause with no
matches yields the fixed non-compliant no-match Finding. -/
theorem clauseFinding_of_empty_text (industry : String) (clause : Clause)
    (htext : clause.text = "") :
    clauseFinding industry clause [] =
      ⟨strTake 80 clause.title, "non_compliant", "High",
        "No strong regulation match for this section; it may be missing specific compliance requirements.",
        "Add enforceable requirements (must/shall), reference the governing regulation, assign an owner, and define a review cadence.",
        []⟩ := by
  have hs := clauseScoreFullDoc_of_empty_text industry clause htext
  simp only [clauseFinding, hs]
  norm_num

/-- C2 counterexample: a document with two sections whose generated issue
strings are IDENTICAL (100% ≥ 60% word overlap) still produces TWO separate
Findings — the final findings list has two entries, one per section, each
with a single section title as its area; no merged Finding exists. -/
theorem merge_counterexample :
    (ruleBasedFullDocumentAnalysis "x" [cexClauseA, cexClauseB] (some emptyRag) []
        none).findings.length = 2 ∧
      (ruleBasedFullDocumentAnalysis "x" [cexClauseA, cexClauseB] (some emptyRag) []
          none).findings.map Finding.issue =
        ["No strong regulation match for this section; it may be missing specific compliance requirements.",
         "No strong regulation match for this section; it may be missing specific compliance requirements."] ∧
      (ruleBasedFullDocumentAnalysis "x" [cexClauseA, cexClauseB] (some emptyRag) []
          none).findings.map Finding.area = ["Section A", "Section B"] := by
  have hA := clauseFinding_of_empty_text "General" cexClauseA rfl
  have hB := clauseFinding_of_empty_text "General" cexClauseB rfl
  have hmA : clauseMatches (some emptyRag) [] cexClauseA = [] := rfl
  have hmB : clauseMatches (some emptyRag) [] cexClauseB = [] := rfl
  have hInd : detectedIndustryOf (some emptyRag) "x" = "General" := rfl
  have htA : strTake 80 cexClauseA.title = "Section A" := by decide
  have htB : strTake 80 cexClauseB.title = "Section B" := by decide
  simp only [ruleBasedFullDocumentAnalysis, hInd]
  have htake : List.take 12 [cexClauseA, cexClauseB] = [cexClauseA, cexClauseB] := rfl
  rw [htake]
  simp only [List.map_cons, List.map_nil, hmA, hmB, hA, hB, List.length_cons, List.length_nil]
  simp [htA, htB]

/-- C2 (amended): the rule-based whole-document assembly performs no merging
at all: each analyzed section contributes exactly one Finding, so the
findings list always has exactly `min 12 (number of sections)` entries, and
near-duplicate issues remain separate Findings (as the counterexample
exhibits on two identical issue texts). -/
theorem findings_one_per_section (full_text : String) (clauses0 : List Clause)
    (rag : Option RagHandle) (matched_regs : List RMatch) (ai_error : Option String) :
    (ruleBasedFullDocumentAnalysis full_text clauses0 rag matched_regs
        ai_error).findings.length = min 12 clauses0.length := by
  simp only [ruleBasedFullDocumentAnalysis]
  simp [List.length_take]

/-- C8: for an empty or whitespace-only document text,
`analyze_full_document_compliance` returns (no exception path exists in the
embedding) a report with `overall_score = 0`, `overall_risk_level = "High"`,
`findings = []`, and an executive summary stating there is no document text
to analyze. -/
theorem analyze_empty_document (full_text : String) (clauses : List Clause)
    (rag : Option RagHandle) (h : isBlank full_text = true) :
    (analyzeFullDocumentCompliance full_text clauses rag).overall_score = 0 ∧
      (analyzeFullDocumentCompliance full_text clauses rag).overall_risk_level = "High" ∧
      (analyzeFullDocumentCompliance full_text clauses rag).findings = [] ∧
      (analyzeFullDocumentCompliance full_text clauses rag).executive_summary =
        "No document text to analyze." := by
  simp [analyzeFullDocumentCompliance, h, emptyFullDocumentResult]

/-- Witness for C8: the empty string is blank, and the theorem yields the
degenerate report for it. -/
theorem analyze_empty_document_witness :
    (analyzeFullDocumentCompliance "" [] none).overall_score = 0 ∧
      (analyzeFullDocumentCompliance "" [] none).overall_risk_level = "High" ∧
      (analyzeFullDocumentCompliance "" [] none).findings = [] ∧
      (analyzeFullDocumentCompliance "" [] none).executive_summary =
        "No document text to analyze." :=
  analyze_empty_document "" [] none (by decide)

/-- C9 counterexample: the degenerate report for an empty document has
`overall_score = 0` but `compliance_debt_estimate = 0`, not
`(100 - 0) * 120 = 12000`, refuting the claim for that report. -/
theorem compliance_debt_empty_counterexample :
    (analyzeFullDocumentCompliance "" [] none).overall_score = 0 ∧
      (analyzeFullDocumentCompliance "" [] none).compliance_debt_estimate ≠
        (100 - (analyzeFullDocumentCompliance "" [] none).overall_score) * 120 := by
  have hb : isBlank "" = true := by decide
  have h : analyzeFullDocumentCompliance "" [] none =
      emptyFullDocumentResult "No document text to analyze." := by
    simp [analyzeFullDocumentCompliance, hb]
  rw [h]
  simp [emptyFullDocumentResult]

/-- C9 (amended): every report produced by the rule-based full-document
analysis satisfies `compliance_debt_estimate = (100 - overall_score) * 120`
exactly; the degenerate empty-document report instead hard-codes
`compliance_debt_estimate = 0`. -/
theorem compliance_debt_formula (full_text : String) (clauses0 : List Clause)
    (rag : Option RagHandle) (matched_regs : List RMatch) (ai_error : Option String) :
    ((ruleBasedFullDocumentAnalysis full_text clauses0 rag matched_regs
        ai_error).compliance_debt_estimate =
      (100 - (ruleBasedFullDocumentAnalysis full_text clauses0 rag matched_regs
        ai_error).overall_score) * 120) ∧
      (∀ msg : String, (emptyFullDocumentResult msg).compliance_debt_estimate = 0) := by
  exact ⟨rfl, fun _ => rfl⟩

/-- C10: the rule-based full-document analysis analyzes at most the first 12
segmented sections: the findings list has at most 12 entries, and the whole
report (findings, section scores, citations, everything) is unchanged if the
clause list is truncated to its first 12 elements, so later sections
contribute nothing. -/
theorem findings_at_most_twelve (full_text : String) (clauses0 : List Clause)
    (rag : Option RagHandle) (matched_regs : List RMatch) (ai_error : Option String) :
    (ruleBasedFullDocumentAnalysis full_text clauses0 rag matched_regs
        ai_error).findings.length ≤ 12 ∧
      ruleBasedFullDocumentAnalysis full_text clauses0 rag matched_regs ai_error =
        ruleBasedFullDocumentAnalysis full_text (clauses0.take 12) rag matched_regs ai_error := by
  constructor
  · simp only [ruleBasedFullDocumentAnalysis]
    simp [List.length_take]
  · simp only [ruleBasedFullDocumentAnalysis, List.take_take]
    norm_num

theorem clauseFinding_grounding (industry : String) (clause : Clause) (ms : List RMatch)
    (hstrip : ∀ m ∈ ms, pyStrip m.regulation.title = m.regulation.title) :
    ∀ t ∈ (clauseFinding industry clause ms).applicable_regulations,
      ∃ m ∈ ms, t = m.regulation.title := by
  intro t ht
  simp only [clauseFinding] at ht
  rw [List.mem_filterMap] at ht
  obtain ⟨m, hmem, hg⟩ := ht
  have hm : m ∈ ms := List.mem_of_mem_take hmem
  refine ⟨m, hm, ?_⟩
  by_cases hz : pyStrip m.regulation.title = ""
  · rw [if_pos hz] at hg
    exact absurd hg (by simp)
  · rw [if_neg hz] at hg
    have heq : pyStrip m.regulation.title = t := Option.some_inj.mp hg
    rw [← hstrip m hm]
    exact heq.symm

/-- C7: finding grounding on the rule-based paths. (a) In the full-document
analysis, every regulation title in a Finding's `applicable_regulations`
equals the title of some Relevance Match retrieved for that same section
(provided retrieved titles carry no surrounding whitespace — the code strips
them before listing). (b) In `_rule_based_analyze`, every entry of
`applicable_regulations` is the title of one of the passed matches,
unconditionally. -/
theorem finding_grounding (full_text : String) (clauses0 : List Clause)
    (rag : Option RagHandle) (matched_regs : List RMatch) (ai_error : Option String)
    (hstrip : ∀ c ∈ clauses0.take 12, ∀ m ∈ clauseMatches rag matched_regs c,
      pyStrip m.regulation.title = m.regulation.title) :
    (∀ f ∈ (ruleBasedFullDocumentAnalysis full_text clauses0 rag matched_regs
        ai_error).findings,
      ∃ c ∈ clauses0.take 12,
        ∀ t ∈ f.applicable_regulations,
          ∃ m ∈ clauseMatches rag matched_regs c, t = m.regulation.title) ∧
      (∀ (clause : Clause) (mr : List RMatch) (e : Option String),
        ∀ t ∈ (ruleBasedAnalyze clause mr e).applicable_regulations,
          ∃ m ∈ mr, t = m.regulation.title) := by
  constructor
  · intro f hf
    simp only [ruleBasedFullDocumentAnalysis] at hf
    rw [List.mem_map] at hf
    obtain ⟨c, hc, hfc⟩ := hf
    refine ⟨c, hc, ?_⟩
    rw [← hfc]
    exact clauseFinding_grounding _ c _ (hstrip c hc)
  · intro clause mr e t ht
    simp only [ruleBasedAnalyze] at ht
    have ht' := List.mem_of_mem_take ht
    rw [List.mem_map] at ht'
    obtain ⟨m, hm, hfm⟩ := ht'
    exact ⟨m, List.mem_of_mem_take hm, hfm.symm⟩

/-- Witness for C7: a concrete one-section, one-match run in which the
grounding theorem applies (the retrieved title carries no surrounding
whitespace). -/
theorem finding_grounding_witness :
    (∀ f ∈ (ruleBasedFullDocumentAnalysis "Sample document text." [witnessClause]
        (some witnessRag) [] none).findings,
      ∃ c ∈ [witnessClause].take 12,
        ∀ t ∈ f.applicable_regulations,
          ∃ m ∈ clauseMatches (some witnessRag) [] c, t = m.regulation.title) ∧
      (∀ (clause : Clause) (mr : List RMatch) (e : Option String),
        ∀ t ∈ (ruleBasedAnalyze clause mr e).applicable_regulations,
          ∃ m ∈ mr, t = m.regulation.title) :=
  finding_grounding "Sample document text." [witnessClause] (some witnessRag) [] none
    (by decide)

/-- On the concrete counterexample clause (empty text, one retrieved match
of similarity `1/2`), `_rule_based_analyze` computes score 0: the
completeness sub-score is 0, so the geometric-mean base vanishes, and the
citation bonus of 3 is wiped out by the completeness penalty `30 * 3^1.5`. -/
theorem ruleBasedAnalyzeScore_cex :
    ruleBasedAnalyzeScore cexC1Clause [⟨cexReg, 1/2⟩] = 0 := by
  have hmiss : missingRequirements (pyLower cexC1Clause.text) cexC1Clause.category =
      defaultRequirements := by decide
  have hout : outdatedHits cexC1Clause = 0 := by decide
  have hcount : categoryRequirementCount cexC1Clause.category = 0 := by decide
  have havg : avgSim [⟨cexReg, 1/2⟩] = 1/2 := by
    norm_num [avgSim, sumSims]
  have htop : topSim [⟨cexReg, 1/2⟩] = 1/2 := rfl
  have hra : calcRegulatoryAlignment [⟨cexReg, 1/2⟩] (1/2) (1/2) = 21/25 := by
    norm_num [calcRegulatoryAlignment, min_def]
  have hls : calcLanguageStrength cexC1Clause.text = 0 := by
    simp [calcLanguageStrength, cexC1Clause]
  have hcs : calcCompleteness cexC1Clause.text cexC1Clause.category [⟨cexReg, 1/2⟩] = 0 := by
    simp [calcCompleteness, cexC1Clause]
  have hrp : calcRiskPenalty cexC1Clause.text [⟨cexReg, 1/2⟩] (1/2) = 1 := by
    simp [calcRiskPenalty, cexC1Clause]
  have henf : (["must", "shall", "required", "mandatory"].any
      (fun kw => pyIn kw (pyLower cexC1Clause.text))) = false := by decide
  simp only [ruleBasedAnalyzeScore, hmiss, hout, havg, htop, hra, hls, hcs, hrp, henf, hcount]
  norm_num [defaultRequirements]
  apply calcComplianceScore_of_nonpos
  rw [calcComplianceReal_cs_zero]
  have hpen : (90:ℝ) ≤ completenessPenalty 3 1 := by
    unfold completenessPenalty
    rw [if_pos (by norm_num)]
    have h1 : ((3:ℕ):ℝ) / ((1:ℕ):ℝ) = 3 := by norm_num
    rw [h1]
    have h2 := Real.rpow_le_rpow_of_exponent_le (by norm_num : (1:ℝ) ≤ 3)
      (by norm_num : (1:ℝ) ≤ 3/2)
    rw [Real.rpow_one] at h2
    linarith
  split_ifs <;> linarith

/-- C1 counterexample: in `_rule_based_analyze`, the concrete clause
`cexC1Clause` with one retrieved match scores below 50 and is classified
`non_compliant` with risk level "Medium" — not "High" as the claim states
for every score below 50. -/
theorem status_risk_counterexample :
    (ruleBasedAnalyze cexC1Clause [⟨cexReg, 1/2⟩] none).compliance_score < 50 ∧
      (ruleBasedAnalyze cexC1Clause [⟨cexReg, 1/2⟩] none).compliance_status =
        "non_compliant" ∧
      (ruleBasedAnalyze cexC1Clause [⟨cexReg, 1/2⟩] none).risk_level = "Medium" := by
  have hs := ruleBasedAnalyzeScore_cex
  have hout : outdatedHits cexC1Clause = 0 := by decide
  simp only [ruleBasedAnalyze, hs, hout]
  norm_num

/-- C1 (amended): status and risk are fixed functions of the final score on
both rule-based paths, with these tables. Full-document per-section path:
`score ≥ 75 → compliant/Low` (issue "None" when `score ≥ 85`, else the
minor-improvements text), `50 ≤ score < 75 → partially_compliant/Medium`,
`score < 50 → non_compliant/High`; NO outdated override exists on this path.
Clause-level path (`_rule_based_analyze`): at least 2 outdated-keyword hits
force status "outdated" with risk "High" regardless of score; otherwise the
same thresholds apply, except that a below-50 clause receives risk "High"
only when no matches were retrieved, and "Medium" when matches exist. -/
theorem status_risk_classification :
    (∀ (industry : String) (clause : Clause) (ms : List RMatch),
      (clauseFinding industry clause ms).status =
        (if 75 ≤ clauseScoreFullDoc industry clause ms then "compliant"
         else if 50 ≤ clauseScoreFullDoc industry clause ms then "partially_compliant"
         else "non_compliant") ∧
      (clauseFinding industry clause ms).risk_level =
        (if 75 ≤ clauseScoreFullDoc industry clause ms then "Low"
         else if 50 ≤ clauseScoreFullDoc industry clause ms then "Medium"
         else "High") ∧
      (clauseFinding industry clause ms).issue =
        (if 75 ≤ clauseScoreFullDoc industry clause ms then
          (if 85 ≤ clauseScoreFullDoc industry clause ms then "None"
           else "Minor improvements possible for enhanced compliance.")
         else (clauseFinding industry clause ms).issue)) ∧
      (∀ (clause : Clause) (mr : List RMatch) (e : Option String),
        (ruleBasedAnalyze clause mr e).compliance_status =
          (if 2 ≤ outdatedHits clause then "outdated"
           else if 75 ≤ ruleBasedAnalyzeScore clause mr then "compliant"
           else if 50 ≤ ruleBasedAnalyzeScore clause mr then "partially_compliant"
           else "non_compliant") ∧
        (ruleBasedAnalyze clause mr e).risk_level =
          (if 2 ≤ outdatedHits clause then "High"
           else if 75 ≤ ruleBasedAnalyzeScore clause mr then "Low"
           else if 50 ≤ ruleBasedAnalyzeScore clause mr then "Medium"
           else if mr.isEmpty then "High" else "Medium")) := by
  constructor
  · intro industry clause ms
    refine ⟨?_, ?_, ?_⟩ <;>
      (simp only [clauseFinding]; split_ifs <;> rfl)
  · intro clause mr e
    constructor
    · simp only [ruleBasedAnalyze]
      split_ifs <;> rfl
    · simp only [ruleBasedAnalyze]
      cases hm : mr.isEmpty <;> simp [hm] <;> split_ifs <;> rfl

end ReguGuard
